import Mathlib

/-!
Verification of the Shopify storefront repository: a shallow embedding of the
client cart store (`src/components/shopify/ShopifyCart.jsx`), the Storefront
utility layer (`src/utils/shopify.js`, the enhanced draft), and the product
route middleware (`src/middleware/shopify.ts`, the env-configured draft with
mock fallback and status sniffing), together with theorems about the
repository's behavioural claims.

Modelling conventions: JavaScript numbers are rationals, JS strings are Lean
strings, `null`/`undefined` is `Option`, a thrown exception is `Except.error`
carrying the error message, and the upstream HTTP/GraphQL exchange is an
explicit value describing the response the network delivered.
-/

/-! ### JavaScript string and number primitives -/

/-- `leadMatch needle hay` is true when `needle` is an initial run of `hay`
(character-by-character comparison). -/
def leadMatch : List Char → List Char → Bool
  | [], _ => true
  | _ :: _, [] => false
  | a :: as, b :: bs => a == b && leadMatch as bs

/-- `subSearch needle hay` is true when `needle` occurs contiguously inside
`hay`. -/
def subSearch (needle : List Char) : List Char → Bool
  | [] => needle.isEmpty
  | c :: rest => leadMatch needle (c :: rest) || subSearch needle rest

/-- Models JavaScript `s.includes(sub)`: substring containment. -/
def strIncludes (s sub : String) : Bool :=
  subSearch sub.data s.data

/-- Value of a list of decimal digit characters read most-significant first. -/
def digitsToNat (ds : List Char) : ℕ :=
  ds.foldl (fun n c => 10 * n + (c.toNat - '0'.toNat)) 0

/-- Models JavaScript `parseFloat` on the plain decimal numerals that occur as
price amounts: optional leading whitespace, optional sign, integer digits,
optional fractional digits. `none` stands for `NaN` (no parsable digits).
The value of `±ip.fp` is `±(ip · 10^|fp| + fp) / 10^|fp|`, assembled with
`mkRat` so that it evaluates by kernel reduction. Exponent forms and
`Infinity`, which never occur in this codebase, are not modelled. -/
def jsParseFloat (s : String) : Option ℚ :=
  let cs := s.data.dropWhile (fun c => c == ' ' || c == '\t' || c == '\n')
  let signRest : Bool × List Char :=
    match cs with
    | '-' :: rest => (true, rest)
    | '+' :: rest => (false, rest)
    | _ => (false, cs)
  let ip := signRest.2.takeWhile Char.isDigit
  let afterInt := signRest.2.dropWhile Char.isDigit
  let fp : List Char :=
    match afterInt with
    | '.' :: rest => rest.takeWhile Char.isDigit
    | _ => []
  if ip.isEmpty && fp.isEmpty then none
  else
    let mag : ℤ := (digitsToNat (ip ++ fp) : ℤ)
    some (mkRat (if signRest.1 then -mag else mag) (10 ^ fp.length))

/-- A JavaScript `number | string` amount argument, as accepted by
`formatPrice` in `src/utils/shopify.js`. -/
inductive JSNum where
  | num (q : ℚ)
  | str (s : String)
deriving DecidableEq, Repr

/-- Groups a reversed digit list into blocks of three (used for the en-US
thousands separator). -/
def chunk3 : List Char → List (List Char)
  | [] => []
  | a :: b :: c :: rest => [a, b, c] :: chunk3 rest
  | l => [l]

/-- Renders a natural number with en-US thousands separators. -/
def intWithCommas (n : ℕ) : String :=
  let rev := (toString n).data.reverse
  String.mk (List.intercalate [','] ((chunk3 rev).map List.reverse).reverse)

/-- Two-digit rendering of a fraction part below 100. -/
def padTwo (n : ℕ) : String :=
  if n < 10 then "0" ++ toString n else toString n

/-- Models `Intl.NumberFormat('en-US', { style: 'currency', currency,
minimumFractionDigits: 2 }).format` on a finite number: exact for `USD`
(dollar sign, thousands separators, two fraction digits); other currency
codes, which the repository never exercises, are rendered with the code as
the symbol. The cent count is `⌊|q| · 100 + 1/2⌋` (rounding to nearest),
computed as `(200 · |num| + den) / (2 · den)` in `ℕ` so that it evaluates by
kernel reduction; the sign test `q < 0` is taken on the numerator of the
reduced fraction. -/
def intlCurrency (q : ℚ) (currencyCode : String) : String :=
  let neg := q.num < 0
  let cents : ℕ := (200 * q.num.natAbs + q.den) / (2 * q.den)
  let ip := cents / 100
  let fp := cents % 100
  let core := intWithCommas ip ++ "." ++ padTwo fp
  let sym := if currencyCode == "USD" then "$" else currencyCode ++ " "
  if neg then "-" ++ sym ++ core else sym ++ core

/-- `formatPrice` from `src/utils/shopify.js`: a string amount is first parsed
with `parseFloat`, then the numeric amount is formatted with the en-US
currency formatter. A `NaN` amount formats as `"$NaN"`. -/
def formatPrice (amount : JSNum) (currencyCode : String) : String :=
  let numericAmount : Option ℚ :=
    match amount with
    | JSNum.str s => jsParseFloat s
    | JSNum.num q => some q
  match numericAmount with
  | some q => intlCurrency q currencyCode
  | none => (if currencyCode == "USD" then "$" else currencyCode ++ " ") ++ "NaN"

example : jsParseFloat "10.5" = some (mkRat 21 2) := by decide
example : formatPrice (JSNum.num 10) "USD" = "$10.00" := by decide
example : formatPrice (JSNum.str "10.5") "USD" = "$10.50" := by decide
example : formatPrice (JSNum.num (mkRat 1234567 100)) "USD" = "$12,345.67" := by decide
example : formatPrice (JSNum.str "abc") "USD" = "$NaN" := by decide
example : strIncludes "Not found" "404" = false := by decide
example : strIncludes "Shopify GraphQL error: 404" "404" = true := by decide

/-! ### Client cart store (`src/components/shopify/ShopifyCart.jsx`)

The cart state and its event handlers. Each `setCart` updater becomes a pure
function `Cart → Cart`. Quantities are integers (the JS handlers can be
called with any number); prices are rationals. The defaulting of missing
`event.detail` fields (`productTitle || ...` etc.) happens before
`handleAddToCart` receives its arguments, so the arguments here are the
resolved `productInfo` fields. -/

/-- A line in the cart (`productInfo` shape from `handleAddToCart`). -/
structure CartItem where
  id : String
  title : String
  price : ℚ
  image : String
  quantity : ℤ
deriving DecidableEq, Repr

/-- The transient toast (`notification` field). -/
structure CartNotification where
  type : String
  message : String
deriving DecidableEq, Repr

/-- The React cart state. -/
structure Cart where
  id : String
  items : List CartItem
  total : ℚ
  isOpen : Bool
  isLoading : Bool
  notification : Option CartNotification
deriving DecidableEq, Repr

/-- `updatedItems.reduce((sum, item) => sum + item.price * item.quantity, 0)`. -/
def cartTotal (items : List CartItem) : ℚ :=
  items.foldl (fun sum item => sum + item.price * (item.quantity : ℚ)) 0

/-- Models JavaScript `Array.prototype.findIndex` (`none` for `-1`). -/
def jsFindIndex {α : Type} (p : α → Bool) : List α → Option ℕ
  | [] => none
  | x :: xs => if p x then some 0 else (jsFindIndex p xs).map (· + 1)

/-- The `updatedItems` computation of `handleAddToCart`: if `findIndex` locates
the product id, bump that entry's quantity; otherwise append `productInfo`.
The `none` inner branch is unreachable (`findIndex` only returns in-range
indices) and returns the list unchanged. -/
def addUpdatedItems (items : List CartItem) (productInfo : CartItem) : List CartItem :=
  match jsFindIndex (fun item => item.id == productInfo.id) items with
  | some i =>
    match items[i]? with
    | some item => items.set i { item with quantity := item.quantity + 1 }
    | none => items
  | none => items ++ [productInfo]

/-- The `handleAddToCart` updater (net effect of the loading updater followed
by the add updater). -/
def handleAddToCart (c : Cart) (productId productTitle : String) (productPrice : ℚ)
    (productImage : String) : Cart :=
  let productInfo : CartItem :=
    { id := productId, title := productTitle, price := productPrice,
      image := productImage, quantity := 1 }
  let updatedItems := addUpdatedItems c.items productInfo
  { c with
    items := updatedItems,
    total := cartTotal updatedItems,
    isOpen := true,
    isLoading := false,
    notification := some { type := "success", message := productInfo.title ++ " added to cart" } }

/-- `updateQuantity`: early-returns when `newQuantity < 1`; otherwise rewrites
the quantity of every item whose id matches and recomputes the total. -/
def updateQuantity (c : Cart) (itemId : String) (newQuantity : ℤ) : Cart :=
  if newQuantity < 1 then c
  else
    let updatedItems := c.items.map
      (fun item => if item.id == itemId then { item with quantity := newQuantity } else item)
    { c with items := updatedItems, total := cartTotal updatedItems }

/-- `removeItem`: filters out the id, recomputes the total, and posts an info
toast naming the removed item when it was found. -/
def removeItem (c : Cart) (itemId : String) : Cart :=
  let removedItem := c.items.find? (fun item => item.id == itemId)
  let updatedItems := c.items.filter (fun item => !(item.id == itemId))
  { c with
    items := updatedItems,
    total := cartTotal updatedItems,
    notification := some
      { type := "info",
        message :=
          match removedItem with
          | some item => item.title ++ " removed from cart"
          | none => "Item removed" } }

/-- `toggleCart`. -/
def toggleCart (c : Cart) : Cart :=
  { c with isOpen := !c.isOpen }

/-- The delayed `setCart` that clears the toast after 3000 ms. -/
def clearNotif (c : Cart) : Cart :=
  { c with notification := none }

/-- The transient `isLoading: true` updater fired at the start of
`handleAddToCart` and of `checkout`. -/
def beginLoading (c : Cart) : Cart :=
  { c with isLoading := true }

/-- The DOM-driven events the Ready cart state reacts to. -/
inductive CartEvent where
  | addToCart (productId productTitle : String) (productPrice : ℚ) (productImage : String)
  | setQuantity (itemId : String) (newQuantity : ℤ)
  | remove (itemId : String)
  | toggle
  | clearNote
  | startLoad
deriving Repr

/-- One step of the cart state machine. -/
def applyEvent (c : Cart) : CartEvent → Cart
  | CartEvent.addToCart pid t p img => handleAddToCart c pid t p img
  | CartEvent.setQuantity i q => updateQuantity c i q
  | CartEvent.remove i => removeItem c i
  | CartEvent.toggle => toggleCart c
  | CartEvent.clearNote => clearNotif c
  | CartEvent.startLoad => beginLoading c

/-- The fresh cart `initializeCart` builds when local storage is empty
(`ts` stands for `Date.now()`). -/
def freshCart (ts : String) : Cart :=
  { id := "checkout_" ++ ts, items := [], total := 0, isOpen := false,
    isLoading := false, notification := none }

/-- Cart states reachable from a fresh cart under the DOM events. -/
inductive Reachable : Cart → Prop where
  | fresh (ts : String) : Reachable (freshCart ts)
  | step (c : Cart) (e : CartEvent) : Reachable c → Reachable (applyEvent c e)

/-! ### Cart lemmas -/

theorem addUpdatedItems_cons_eq (x : CartItem) (xs : List CartItem) (info : CartItem)
    (hx : (x.id == info.id) = true) :
    addUpdatedItems (x :: xs) info = { x with quantity := x.quantity + 1 } :: xs := by
  simp [addUpdatedItems, jsFindIndex, hx]

theorem addUpdatedItems_cons_ne (x : CartItem) (xs : List CartItem) (info : CartItem)
    (hx : (x.id == info.id) = false) :
    addUpdatedItems (x :: xs) info = x :: addUpdatedItems xs info := by
  unfold addUpdatedItems
  simp only [jsFindIndex, hx, Bool.false_eq_true, if_false]
  cases hfind : jsFindIndex (fun item => item.id == info.id) xs with
  | none => simp
  | some j =>
    simp only [Option.map_some]
    cases hget : xs[j]? with
    | none => simp [hget]
    | some item => simp [hget]

theorem addUpdatedItems_first_match (items : List CartItem) (info : CartItem)
    (h : ∃ it ∈ items, it.id = info.id) :
    ∃ l1 it l2, items = l1 ++ it :: l2 ∧ (∀ x ∈ l1, x.id ≠ info.id) ∧ it.id = info.id ∧
      addUpdatedItems items info = l1 ++ ({ it with quantity := it.quantity + 1 }) :: l2 := by
  induction items with
  | nil => simp at h
  | cons x xs ih =>
    by_cases hx : x.id = info.id
    · refine ⟨[], x, xs, by simp, by simp, hx, ?_⟩
      rw [addUpdatedItems_cons_eq x xs info (beq_iff_eq.mpr hx)]
      simp
    · have hxs : ∃ it ∈ xs, it.id = info.id := by
        rcases h with ⟨it, hit, hid⟩
        rcases List.mem_cons.mp hit with rfl | hmem
        · exact absurd hid hx
        · exact ⟨it, hmem, hid⟩
      rcases ih hxs with ⟨l1, it, l2, heq, hl1, hid, hresult⟩
      refine ⟨x :: l1, it, l2, by rw [heq]; rfl, ?_, hid, ?_⟩
      · intro y hy
        rcases List.mem_cons.mp hy with rfl | hmem
        · exact hx
        · exact hl1 y hmem
      · rw [addUpdatedItems_cons_ne x xs info (by simpa using hx), hresult]
        rfl

theorem mem_addUpdatedItems_qty (items : List CartItem) (info : CartItem)
    (hinfo : 1 ≤ info.quantity) (hinv : ∀ it ∈ items, 1 ≤ it.quantity) :
    ∀ it ∈ addUpdatedItems items info, 1 ≤ it.quantity := by
  induction items with
  | nil =>
    intro it hit
    simp [addUpdatedItems, jsFindIndex] at hit
    simpa [hit] using hinfo
  | cons x xs ih =>
    intro it hit
    by_cases hx : (x.id == info.id) = true
    · rw [addUpdatedItems_cons_eq x xs info hx] at hit
      rcases List.mem_cons.mp hit with rfl | hmem
      · have := hinv x (by simp)
        simp only []
        omega
      · exact hinv it (List.mem_cons_of_mem x hmem)
    · rw [addUpdatedItems_cons_ne x xs info (by simpa using hx)] at hit
      rcases List.mem_cons.mp hit with rfl | hmem
      · exact hinv it (by simp)
      · exact ih (fun y hy => hinv y (List.mem_cons_of_mem x hy)) it hmem

/-- In every reachable cart state the stored total is the recomputed total. -/
theorem reachableTotalEq (c : Cart) (h : Reachable c) : c.total = cartTotal c.items := by
  induction h with
  | fresh ts => rfl
  | step c e _ ih =>
    cases e with
    | addToCart pid t p img => simp [applyEvent, handleAddToCart]
    | setQuantity i q =>
      by_cases hq : q < 1
      · simpa [applyEvent, updateQuantity, hq] using ih
      · simp [applyEvent, updateQuantity, hq]
    | remove i => simp [applyEvent, removeItem]
    | toggle => simpa [applyEvent, toggleCart] using ih
    | clearNote => simpa [applyEvent, clearNotif] using ih
    | startLoad => simpa [applyEvent, beginLoading] using ih

/-- In every reachable cart state every item's quantity is at least one. -/
theorem reachableQtyGeOne (c : Cart) (h : Reachable c) :
    ∀ it ∈ c.items, 1 ≤ it.quantity := by
  induction h with
  | fresh ts => intro it hit; simp [freshCart] at hit
  | step c e hc ih =>
    cases e with
    | addToCart pid t p img =>
      intro it hit
      simp only [applyEvent, handleAddToCart] at hit
      exact mem_addUpdatedItems_qty c.items _ (by norm_num) ih it hit
    | setQuantity i q =>
      intro it hit
      by_cases hq : q < 1
      · exact ih it (by simpa [applyEvent, updateQuantity, hq] using hit)
      · simp only [applyEvent, updateQuantity, hq, if_false] at hit
        rcases List.mem_map.mp hit with ⟨old, hold, hfn⟩
        by_cases hid : (old.id == i) = true
        · rw [← hfn]
          simp [hid]
          omega
        · rw [← hfn]
          simp only [hid]
          simpa [hid] using ih old hold
    | remove i =>
      intro it hit
      simp only [applyEvent, removeItem] at hit
      exact ih it (List.mem_of_mem_filter hit)
    | toggle => intro it hit; exact ih it (by simpa [applyEvent, toggleCart] using hit)
    | clearNote => intro it hit; exact ih it (by simpa [applyEvent, clearNotif] using hit)
    | startLoad => intro it hit; exact ih it (by simpa [applyEvent, beginLoading] using hit)

/-- Claim C2: dispatching the add-item event twice with the same product id on
an initially empty cart yields a cart with exactly one CartItem of quantity 2
whose total is the unit price times 2; and in general, adding a product id
already present in the cart bumps the first matching item's quantity by one
instead of appending a new item. -/
theorem cart_add_same_product_twice
    (c : Cart) (pid t img : String) (p : ℚ)
    (hempty : c.items = []) :
    (handleAddToCart (handleAddToCart c pid t p img) pid t p img).items =
      [{ id := pid, title := t, price := p, image := img, quantity := 2 }] ∧
    (handleAddToCart (handleAddToCart c pid t p img) pid t p img).total = p * 2 ∧
    (∀ c2 : Cart, (∃ it ∈ c2.items, it.id = pid) →
      ∃ l1 it l2, c2.items = l1 ++ it :: l2 ∧ (∀ x ∈ l1, x.id ≠ pid) ∧ it.id = pid ∧
        (handleAddToCart c2 pid t p img).items =
          l1 ++ ({ it with quantity := it.quantity + 1 }) :: l2) := by
  have hfirst : (handleAddToCart c pid t p img).items =
      [{ id := pid, title := t, price := p, image := img, quantity := 1 }] := by
    simp [handleAddToCart, hempty, addUpdatedItems, jsFindIndex]
  have hstep : ∀ c1 : Cart,
      c1.items = [{ id := pid, title := t, price := p, image := img, quantity := 1 }] →
      (handleAddToCart c1 pid t p img).items =
        [{ id := pid, title := t, price := p, image := img, quantity := 2 }] := by
    intro c1 h1
    simp [handleAddToCart, h1, addUpdatedItems, jsFindIndex]
  have hsecond := hstep _ hfirst
  refine ⟨hsecond, ?_, ?_⟩
  · have htotal : (handleAddToCart (handleAddToCart c pid t p img) pid t p img).total =
        cartTotal ((handleAddToCart (handleAddToCart c pid t p img) pid t p img).items) := rfl
    rw [htotal, hsecond]
    simp [cartTotal]
  · intro c2 hc2
    exact addUpdatedItems_first_match c2.items
      { id := pid, title := t, price := p, image := img, quantity := 1 } hc2

theorem cart_add_same_product_twice_witness :
    (freshCart "w2").items = [] ∧
    (handleAddToCart (handleAddToCart (freshCart "w2") "p1" "Tee" 10 "img") "p1" "Tee" 10 "img").items =
      [{ id := "p1", title := "Tee", price := 10, image := "img", quantity := 2 }] ∧
    (handleAddToCart (handleAddToCart (freshCart "w2") "p1" "Tee" 10 "img") "p1" "Tee" 10 "img").total =
      10 * 2 :=
  ⟨rfl, (cart_add_same_product_twice (freshCart "w2") "p1" "Tee" "img" 10 rfl).1,
    (cart_add_same_product_twice (freshCart "w2") "p1" "Tee" "img" 10 rfl).2.1⟩

/-- Claim C3: after every cart mutation the stored total equals the sum over
all items of unit price times quantity (stated over every reachable cart
state, since every mutation recomputes the total); and removing the only
CartItem of a one-item cart leaves an empty items list with total 0. -/
theorem cart_total_invariant :
    (∀ c : Cart, Reachable c → c.total = cartTotal c.items) ∧
    (∀ (c : Cart) (it : CartItem), c.items = [it] →
      (removeItem c it.id).items = [] ∧ (removeItem c it.id).total = 0) := by
  refine ⟨reachableTotalEq, ?_⟩
  intro c it h
  constructor
  · show List.filter _ c.items = []
    rw [h]
    simp
  · show cartTotal (List.filter _ c.items) = 0
    rw [h]
    simp [cartTotal]

theorem cart_total_invariant_witness :
    ((freshCart "w3").total = cartTotal (freshCart "w3").items) ∧
    ((handleAddToCart (freshCart "w3") "p1" "Tee" 10 "img").items =
      [{ id := "p1", title := "Tee", price := 10, image := "img", quantity := 1 }]) ∧
    ((removeItem (handleAddToCart (freshCart "w3") "p1" "Tee" 10 "img") "p1").items = [] ∧
     (removeItem (handleAddToCart (freshCart "w3") "p1" "Tee" 10 "img") "p1").total = 0) :=
  ⟨cart_total_invariant.1 (freshCart "w3") (Reachable.fresh "w3"), rfl,
    cart_total_invariant.2 (handleAddToCart (freshCart "w3") "p1" "Tee" 10 "img")
      { id := "p1", title := "Tee", price := 10, image := "img", quantity := 1 } rfl⟩

/-- Claim C4 counterexample: in the reachable one-item cart holding "p1" with
quantity 1, decrementing the quantity below 1 (the decrease button calls
`updateQuantity(id, 0)`) does NOT remove the CartItem — `updateQuantity`
early-returns and the whole cart is unchanged, so the item is still there. -/
theorem decrement_below_one_keeps_item_cex :
    Reachable (handleAddToCart (freshCart "c4") "p1" "Tee" 10 "img") ∧
    (handleAddToCart (freshCart "c4") "p1" "Tee" 10 "img").items =
      [{ id := "p1", title := "Tee", price := 10, image := "img", quantity := 1 }] ∧
    updateQuantity (handleAddToCart (freshCart "c4") "p1" "Tee" 10 "img") "p1" (1 - 1) =
      handleAddToCart (freshCart "c4") "p1" "Tee" 10 "img" ∧
    (updateQuantity (handleAddToCart (freshCart "c4") "p1" "Tee" 10 "img") "p1" (1 - 1)).items ≠ [] :=
  ⟨Reachable.step (freshCart "c4") (CartEvent.addToCart "p1" "Tee" 10 "img")
      (Reachable.fresh "c4"),
    rfl, rfl, by decide⟩

/-- Claim C4 (amended): in every reachable cart state every CartItem's
quantity is at least 1; decrementing a quantity below 1 through
`updateQuantity` is a no-op that leaves the item in the cart (the early
return), and a CartItem is removed entirely only through the explicit
remove-item action, after which no item with that id remains. -/
theorem cart_quantity_invariant_amended :
    (∀ c : Cart, Reachable c → ∀ it ∈ c.items, 1 ≤ it.quantity) ∧
    (∀ (c : Cart) (itemId : String) (q : ℤ), q < 1 → updateQuantity c itemId q = c) ∧
    (∀ (c : Cart) (itemId : String), ∀ it ∈ (removeItem c itemId).items, it.id ≠ itemId) := by
  refine ⟨reachableQtyGeOne, ?_, ?_⟩
  · intro c itemId q hq
    simp [updateQuantity, hq]
  · intro c itemId it hit
    have := List.of_mem_filter hit
    simpa using this

theorem cart_quantity_invariant_amended_witness :
    (1 ≤ ({ id := "p1", title := "Tee", price := 10, image := "img",
            quantity := 1 } : CartItem).quantity) ∧
    ((0 : ℤ) < 1 ∧
      updateQuantity (handleAddToCart (freshCart "w4") "p1" "Tee" 10 "img") "p1" 0 =
        handleAddToCart (freshCart "w4") "p1" "Tee" 10 "img") :=
  ⟨cart_quantity_invariant_amended.1 (handleAddToCart (freshCart "w4") "p1" "Tee" 10 "img")
      (Reachable.step (freshCart "w4") (CartEvent.addToCart "p1" "Tee" 10 "img")
        (Reachable.fresh "w4"))
      { id := "p1", title := "Tee", price := 10, image := "img", quantity := 1 }
      (by simp [handleAddToCart, freshCart, addUpdatedItems, jsFindIndex]),
    by decide,
    cart_quantity_invariant_amended.2.1 _ "p1" 0 (by decide)⟩

/-- Claim C10: `updateQuantity(itemId, q)` with `q < 1` leaves the entire cart
state unchanged; with `q ≥ 1` it changes only the quantity of items whose id
equals `itemId` (keeping their id, title, price and image) and the recomputed
total, leaves every other item and every other cart field unchanged, and when
no item carries that id the items list is unchanged. -/
theorem updateQuantity_frame (c : Cart) (itemId : String) (q : ℤ) :
    (q < 1 → updateQuantity c itemId q = c) ∧
    (1 ≤ q →
      (updateQuantity c itemId q).id = c.id ∧
      (updateQuantity c itemId q).isOpen = c.isOpen ∧
      (updateQuantity c itemId q).isLoading = c.isLoading ∧
      (updateQuantity c itemId q).notification = c.notification ∧
      (updateQuantity c itemId q).items.length = c.items.length ∧
      (∀ i : ℕ, ∀ hi : i < c.items.length,
        (updateQuantity c itemId q).items[i]? =
          some (if (c.items.get ⟨i, hi⟩).id == itemId
                then { c.items.get ⟨i, hi⟩ with quantity := q }
                else c.items.get ⟨i, hi⟩)) ∧
      (updateQuantity c itemId q).total = cartTotal (updateQuantity c itemId q).items ∧
      ((∀ it ∈ c.items, it.id ≠ itemId) → (updateQuantity c itemId q).items = c.items)) := by
  constructor
  · intro hq
    simp [updateQuantity, hq]
  · intro hq
    have hq' : ¬ q < 1 := by omega
    refine ⟨by simp [updateQuantity, hq'], by simp [updateQuantity, hq'],
      by simp [updateQuantity, hq'], by simp [updateQuantity, hq'],
      by simp [updateQuantity, hq'], ?_, by simp [updateQuantity, hq'], ?_⟩
    · intro i hi
      simp only [updateQuantity, hq', if_false]
      rw [List.getElem?_map]
      rw [List.getElem?_eq_getElem hi]
      simp [List.get_eq_getElem]
    · intro hnone
      simp only [updateQuantity, hq', if_false]
      have : ∀ it ∈ c.items,
          (if it.id == itemId then { it with quantity := q } else it) = it := by
        intro it hit
        have := hnone it hit
        simp [this]
      calc c.items.map (fun item => if item.id == itemId then { item with quantity := q } else item)
          = c.items.map id := List.map_congr_left this
        _ = c.items := List.map_id c.items

theorem updateQuantity_frame_witness :
    ((0 : ℤ) < 1 ∧
      updateQuantity (handleAddToCart (freshCart "wA") "p1" "Tee" 10 "img") "p1" 0 =
        handleAddToCart (freshCart "wA") "p1" "Tee" 10 "img") ∧
    ((1 : ℤ) ≤ 3 ∧
      (updateQuantity (handleAddToCart (freshCart "wA") "p1" "Tee" 10 "img") "p1" 3).notification =
        (handleAddToCart (freshCart "wA") "p1" "Tee" 10 "img").notification ∧
      (updateQuantity (handleAddToCart (freshCart "wA") "p1" "Tee" 10 "img") "p1" 3).items.length =
        (handleAddToCart (freshCart "wA") "p1" "Tee" 10 "img").items.length) :=
  ⟨⟨by decide,
      (updateQuantity_frame (handleAddToCart (freshCart "wA") "p1" "Tee" 10 "img") "p1" 0).1
        (by decide)⟩,
    ⟨by decide,
      ((updateQuantity_frame (handleAddToCart (freshCart "wA") "p1" "Tee" 10 "img") "p1" 3).2
        (by decide)).2.2.2.1,
      ((updateQuantity_frame (handleAddToCart (freshCart "wA") "p1" "Tee" 10 "img") "p1" 3).2
        (by decide)).2.2.2.2.1⟩⟩

/-! ### Storefront utility layer (`src/utils/shopify.js`, enhanced draft)

`queryStorefront` and the product read/format functions. The upstream
exchange is a value describing what the network returned; the retry loop of
`queryStorefront` is not visible in the result because a deterministic
upstream answers every attempt identically, so the single-attempt semantics
is the fixed point of the loop. GraphQL `edges`/`node` wrappers are
collapsed into plain lists. -/

/-- A `minVariantPrice` (or variant price) object: decimal amount string plus
currency code. -/
structure PriceStr where
  amount : String
  currencyCode : String
deriving DecidableEq, Repr

/-- An upstream image node. -/
structure SFImage where
  url : String
  altText : Option String
  width : Option ℤ
  height : Option ℤ
deriving DecidableEq, Repr

/-- What the network delivered for one Storefront POST: a non-success HTTP
status, or a parsed envelope with optional `errors` and optional `data`. -/
inductive UpstreamSF (D : Type) where
  | httpError (code : ℕ)
  | envelope (errors : Option (List String)) (data : Option D)

/-- `queryStorefront`: non-success status throws `HTTP error! Status: ...`;
a present `errors` field throws the first error's message (the JS
`result.errors[0].message || 'GraphQL error occurred'` falls back on an empty
message and crashes with a TypeError on an empty errors array); otherwise the
whole envelope is returned and the caller destructures `data`. -/
def queryStorefront {D : Type} (u : UpstreamSF D) : Except String (Option D) :=
  match u with
  | UpstreamSF.httpError code => Except.error ("HTTP error! Status: " ++ toString code)
  | UpstreamSF.envelope errors dat =>
    match errors with
    | some [] => Except.error "TypeError: cannot read message of undefined"
    | some (m :: _) => Except.error (if m == "" then "GraphQL error occurred" else m)
    | none => Except.ok dat

/-- JS `>` between two `parseFloat` results: false whenever either side is
`NaN`. -/
def jsNumGt (a b : Option ℚ) : Bool :=
  match a, b with
  | some x, some y => decide (y < x)
  | _, _ => false

/-- The compare-at-price computation repeated in `getFeaturedProducts`,
`searchProducts`, `getProductByHandle` and `getRecentProducts`: formatted and
present only when the compare-at minimum variant price exists and
`parseFloat` of it is strictly greater than `parseFloat` of the minimum
variant price. The two JS null-checks (`compareAtPriceRange &&
compareAtPriceRange.minVariantPrice`) collapse into one `Option`. -/
def computeCompareAtPrice (compareAtMin : Option PriceStr) (priceMin : PriceStr) :
    Option String :=
  match compareAtMin with
  | some cap =>
    if jsNumGt (jsParseFloat cap.amount) (jsParseFloat priceMin.amount)
    then some (formatPrice (JSNum.str cap.amount) cap.currencyCode)
    else none
  | none => none

/-- An upstream product node as selected by the search query. -/
structure SearchNode where
  id : String
  title : String
  handle : String
  description : String
  availableForSale : Bool
  productType : String
  priceRange : PriceStr
  compareAtPriceRange : Option PriceStr
  featuredImage : Option SFImage
  tags : List String
  vendor : String
deriving DecidableEq, Repr

/-- The `data` payload of the search query (`products.edges` collapsed). -/
structure SearchData where
  products : List SearchNode
deriving DecidableEq, Repr

/-- The record `searchProducts` maps each node to. -/
structure FormattedSearchProduct where
  id : String
  title : String
  handle : String
  description : String
  price : String
  compareAtPrice : Option String
  image : String
  imageAlt : String
  availableForSale : Bool
  productType : String
  vendor : String
  tags : List String
  isFeatured : Bool
deriving DecidableEq, Repr

/-- The per-node mapping inside `searchProducts` (and, less a few fields,
`getFeaturedProducts`/`getRecentProducts`). JS `x || fallback` on strings
treats the empty string as absent. -/
def formatSearchNode (node : SearchNode) : FormattedSearchProduct :=
  { id := node.id, title := node.title, handle := node.handle,
    description := node.description,
    price := formatPrice (JSNum.str node.priceRange.amount) node.priceRange.currencyCode,
    compareAtPrice := computeCompareAtPrice node.compareAtPriceRange node.priceRange,
    image :=
      match node.featuredImage with
      | some img => if img.url == "" then "/placeholder-product.png" else img.url
      | none => "/placeholder-product.png",
    imageAlt :=
      match node.featuredImage with
      | some img =>
        match img.altText with
        | some a => if a == "" then node.title else a
        | none => node.title
      | none => node.title,
    availableForSale := node.availableForSale, productType := node.productType,
    vendor := node.vendor, tags := node.tags,
    isFeatured := node.tags.contains "featured" }

/-- `searchProducts(searchQuery)` over an upstream oracle. The second
component counts the upstream `queryStorefront` calls the invocation issues
(0 on the short-circuit, 1 otherwise). Terms shorter than 2 characters
(including the falsy empty string) return `[]` before any network activity;
otherwise double quotes are escaped and the query is sent. -/
def searchProducts (oracle : String → UpstreamSF SearchData) (searchQuery : String) :
    Except String (List FormattedSearchProduct) × ℕ :=
  if searchQuery = "" ∨ searchQuery.length < 2 then (Except.ok [], 0)
  else
    let sanitizedQuery := searchQuery.replace "\"" "\\\""
    match queryStorefront (oracle sanitizedQuery) with
    | Except.error e => (Except.error e, 1)
    | Except.ok none => (Except.error "TypeError: cannot read products of undefined", 1)
    | Except.ok (some d) => (Except.ok (d.products.map formatSearchNode), 1)

/-- A `selectedOptions` entry. -/
structure SFSelectedOption where
  name : String
  value : String
deriving DecidableEq, Repr

/-- An upstream variant node of the by-handle query. -/
structure SFVariantNode where
  id : String
  title : String
  availableForSale : Bool
  price : PriceStr
  compareAtPrice : Option PriceStr
  selectedOptions : List SFSelectedOption
deriving DecidableEq, Repr

/-- An upstream `options` entry. -/
structure SFOption where
  name : String
  values : List String
deriving DecidableEq, Repr

/-- The upstream product node of the by-handle query. -/
structure SFProduct where
  id : String
  title : String
  handle : String
  description : String
  descriptionHtml : String
  availableForSale : Bool
  productType : String
  priceRange : PriceStr
  compareAtPriceRange : Option PriceStr
  featuredImage : Option SFImage
  images : List SFImage
  variants : List SFVariantNode
  options : List SFOption
  tags : List String
  vendor : String
deriving DecidableEq, Repr

/-- The `data` payload of the by-handle query. -/
structure HandleData where
  product : Option SFProduct
deriving DecidableEq, Repr

/-- A formatted variant of the by-handle result (the `selectedOptions.reduce`
object becomes an association list). -/
structure HandleVariantF where
  id : String
  title : String
  availableForSale : Bool
  price : String
  compareAtPrice : Option String
  options : List (String × String)
deriving DecidableEq, Repr

/-- A formatted image of the by-handle result. -/
structure HandleImageF where
  url : String
  alt : String
  width : Option ℤ
  height : Option ℤ
deriving DecidableEq, Repr

/-- The formatted product `getProductByHandle` returns. -/
structure HandleProductF where
  id : String
  title : String
  handle : String
  description : String
  descriptionHtml : String
  price : String
  compareAtPrice : Option String
  image : String
  imageAlt : String
  images : List HandleImageF
  availableForSale : Bool
  productType : String
  vendor : String
  tags : List String
  isFeatured : Bool
  variants : List HandleVariantF
  options : List (String × List String)
deriving DecidableEq, Repr

/-- The variant mapping inside `getProductByHandle`. -/
def formatHandleVariant (variant : SFVariantNode) : HandleVariantF :=
  { id := variant.id, title := variant.title,
    availableForSale := variant.availableForSale,
    price := formatPrice (JSNum.str variant.price.amount) variant.price.currencyCode,
    compareAtPrice :=
      match variant.compareAtPrice with
      | some cap => some (formatPrice (JSNum.str cap.amount) cap.currencyCode)
      | none => none,
    options := variant.selectedOptions.map (fun o => (o.name, o.value)) }

/-- The formatting body of `getProductByHandle` on a present product. -/
def formatHandleProduct (product : SFProduct) : HandleProductF :=
  { id := product.id, title := product.title, handle := product.handle,
    description := product.description, descriptionHtml := product.descriptionHtml,
    price := formatPrice (JSNum.str product.priceRange.amount) product.priceRange.currencyCode,
    compareAtPrice := computeCompareAtPrice product.compareAtPriceRange product.priceRange,
    image :=
      match product.featuredImage with
      | some img => if img.url == "" then "/placeholder-product.png" else img.url
      | none => "/placeholder-product.png",
    imageAlt :=
      match product.featuredImage with
      | some img =>
        match img.altText with
        | some a => if a == "" then product.title else a
        | none => product.title
      | none => product.title,
    images := product.images.map (fun e =>
      { url := e.url,
        alt :=
          match e.altText with
          | some a => if a == "" then product.title else a
          | none => product.title,
        width := e.width, height := e.height }),
    availableForSale := product.availableForSale, productType := product.productType,
    vendor := product.vendor, tags := product.tags,
    isFeatured := product.tags.contains "featured",
    variants := product.variants.map formatHandleVariant,
    options := product.options.map (fun o => (o.name, o.values)) }

/-- `getProductByHandle(handle)`: `null` for a falsy handle, `null` when the
upstream call throws (the catch clause logs and returns `null`), `null` when
`data` or `data.product` is absent, and the formatted product otherwise. -/
def getProductByHandle (handle : String) (u : UpstreamSF HandleData) : Option HandleProductF :=
  if handle = "" then none
  else
    match queryStorefront u with
    | Except.error _ => none
    | Except.ok none => none
    | Except.ok (some d) =>
      match d.product with
      | none => none
      | some p => some (formatHandleProduct p)

/-! ### Product route middleware (`src/middleware/shopify.ts`, env draft)

The draft that reads `SHOPIFY_DOMAIN`/`SHOPIFY_ACCESS_TOKEN` with placeholder
defaults, substitutes a mock product in demo mode, and sniffs the error
message for a status code. `ShopifyGraphQLProduct` keeps the middleware's
interface shape with `edges`/`node` wrappers collapsed into lists. -/

/-- An upstream variant node (`ShopifyVariant`). -/
structure GQLVariant where
  id : String
  title : String
  price : String
  compareAtPrice : Option String
  availableForSale : Bool
  sku : Option String
deriving DecidableEq, Repr

/-- A `priceRange`/`compareAtPriceRange` object. -/
structure GQLPriceRange where
  minVariantPrice : PriceStr
deriving DecidableEq, Repr

/-- The upstream product (`ShopifyGraphQLProduct`). -/
structure GQLProduct where
  id : String
  title : String
  handle : String
  description : String
  availableForSale : Bool
  priceRange : GQLPriceRange
  compareAtPriceRange : Option GQLPriceRange
  featuredImage : Option SFImage
  images : List SFImage
  variants : List GQLVariant
deriving DecidableEq, Repr

/-- A formatted variant (`ShopifyProduct.variants` element). -/
structure FormattedVariant where
  id : String
  title : String
  price : String
  compareAtPrice : Option String
  available : Bool
  sku : Option String
deriving DecidableEq, Repr

/-- The formatted product (`ShopifyProduct`). -/
structure ShopifyProductF where
  id : String
  title : String
  handle : String
  description : String
  price : String
  compareAtPrice : Option String
  image : String
  images : List String
  variants : List FormattedVariant
  available : Bool
deriving DecidableEq, Repr

/-- Splits a character list at every occurrence of `sep`, keeping empty
segments, like JavaScript `String.prototype.split` with a one-character
separator. -/
def splitChar (sep : Char) : List Char → List (List Char)
  | [] => [[]]
  | c :: rest =>
    let r := splitChar sep rest
    if c == sep then [] :: r
    else
      match r with
      | g :: gs => (c :: g) :: gs
      | [] => [[c]]

/-- Models JavaScript `s.split(sep)` for a one-character separator. -/
def jsSplit (sep : Char) (s : String) : List String :=
  (splitChar sep s.data).map String.mk

/-- JavaScript `s.split('/').pop() || ''`. -/
def popSegment (s : String) : String :=
  ((jsSplit '/' s).getLast?).getD ""

/-- JavaScript `x || undefined` on an optional string: the empty string is
falsy and becomes `undefined`. -/
def jsOrNone (o : Option String) : Option String :=
  match o with
  | some s => if s == "" then none else some s
  | none => none

/-- `formatProduct` from the middleware: trailing id segment, featured-or-first
image (JS `||` treats the empty URL as absent), flattened image URLs, mapped
variants, and the compare-at amount forwarded from
`compareAtPriceRange?.minVariantPrice?.amount` with no price comparison. -/
def formatProduct (product : GQLProduct) : ShopifyProductF :=
  { id := popSegment product.id,
    title := product.title, handle := product.handle,
    description := product.description,
    price := product.priceRange.minVariantPrice.amount,
    compareAtPrice := product.compareAtPriceRange.map (fun r => r.minVariantPrice.amount),
    image :=
      match product.featuredImage with
      | some img =>
        if img.url == "" then
          match product.images.head? with
          | some first => first.url
          | none => ""
        else img.url
      | none =>
        match product.images.head? with
        | some first => first.url
        | none => "",
    images := product.images.map (fun node => node.url),
    variants := product.variants.map (fun node =>
      { id := popSegment node.id, title := node.title, price := node.price,
        compareAtPrice := jsOrNone node.compareAtPrice,
        available := node.availableForSale, sku := jsOrNone node.sku }),
    available := product.availableForSale }

/-- What the network delivered for one Admin-API POST in `executeGraphQL`:
non-success status, unparsable body, or a parsed envelope. -/
inductive Upstream (D : Type) where
  | httpError (code : ℕ)
  | parseError
  | envelope (errors : Option (List String)) (data : Option D)

/-- `executeGraphQL`: non-success status throws `Shopify GraphQL error:
<status>`; an unparsable body throws `Invalid JSON response from Shopify`; a
non-empty errors list throws the first error's message; a missing `data`
field throws `No data returned from Shopify`. -/
def executeGraphQL {D : Type} (u : Upstream D) : Except String D :=
  match u with
  | Upstream.httpError code => Except.error ("Shopify GraphQL error: " ++ toString code)
  | Upstream.parseError => Except.error "Invalid JSON response from Shopify"
  | Upstream.envelope errors dat =>
    match errors with
    | some (e :: _) => Except.error e
    | _ =>
      match dat with
      | some d => Except.ok d
      | none => Except.error "No data returned from Shopify"

/-- The `data` payload of `GetProductById` (`ProductByIdResponse`). -/
structure ProductByIdResponse where
  product : Option GQLProduct
deriving DecidableEq, Repr

/-- `fetchProductById`: runs the query, throws `Product not found: <id>` on a
null product field, and formats otherwise. -/
def fetchProductById (id : String) (u : Upstream ProductByIdResponse) :
    Except String ShopifyProductF :=
  match executeGraphQL u with
  | Except.error e => Except.error e
  | Except.ok data =>
    match data.product with
    | none => Except.error ("Product not found: " ++ id)
    | some p => Except.ok (formatProduct p)

/-- The environment configuration the middleware reads at module load. -/
structure ShopifyConfig where
  domain : String
  accessToken : String
deriving DecidableEq, Repr

/-- `isShopifyConfigured`: both values differ from their placeholder
defaults. -/
def isShopifyConfigured (cfg : ShopifyConfig) : Bool :=
  !(cfg.domain == "your-store.myshopify.com") && !(cfg.accessToken == "your-access-token")

/-- The canned `MOCK_PRODUCT` served in demo mode. -/
def MOCK_PRODUCT : ShopifyProductF :=
  { id := "12345678", title := "Demo Product", handle := "demo-product",
    description := "<p>This is a demo product that appears when Shopify credentials aren\x27t configured.</p><p>Update your .env file with real Shopify credentials to see real products.</p>",
    price := "99.99", compareAtPrice := some "129.99",
    image := "https://via.placeholder.com/500x500.png?text=Demo+Product",
    images :=
      ["https://via.placeholder.com/500x500.png?text=Demo+Product",
       "https://via.placeholder.com/500x500.png?text=Demo+Product+2",
       "https://via.placeholder.com/500x500.png?text=Demo+Product+3"],
    variants :=
      [{ id := "1", title := "Default", price := "99.99",
         compareAtPrice := some "129.99", available := true, sku := some "DEMO-SKU" }],
    available := true }

/-- The status-sniffing chain of the route error handler. -/
def statusFromMessage (msg : String) : ℕ :=
  if strIncludes msg "403" then 403
  else if strIncludes msg "404" then 404
  else if strIncludes msg "429" then 429
  else 500

/-- The user-facing message picked alongside the sniffed status. -/
def friendlyMessage (msg : String) : String :=
  if strIncludes msg "403" then
    "Authentication error with Shopify. Please check your access token and permissions."
  else if strIncludes msg "404" then "Product not found or API endpoint is incorrect."
  else if strIncludes msg "429" then "Rate limit exceeded. Too many requests to Shopify API."
  else msg

/-- `productId.includes('gid://') ? productId : 'gid://shopify/Product/' + productId`. -/
def formatId (productId : String) : String :=
  if strIncludes productId "gid://" then productId
  else "gid://shopify/Product/" ++ productId

/-- A response body of the product route. -/
inductive RouteBody where
  | empty
  | productBody (product : ShopifyProductF)
  | errorBody (message details : String)
deriving DecidableEq, Repr

/-- The outcome of the middleware on one request: fall through to `next()` or
respond with a status and body. -/
inductive RouteResult where
  | passedThrough
  | responded (status : ℕ) (body : RouteBody)
deriving DecidableEq, Repr

/-- The GET branch of the route: demo mode serves the mock product with the
requested id substituted; configured mode formats the id, fetches, and on
failure sniffs the error message for the status. -/
def handleGet (cfg : ShopifyConfig) (productId : String)
    (upstream : String → Upstream ProductByIdResponse) : RouteResult :=
  if isShopifyConfigured cfg then
    match fetchProductById (formatId productId) (upstream (formatId productId)) with
    | Except.ok product => RouteResult.responded 200 (RouteBody.productBody product)
    | Except.error msg =>
      RouteResult.responded (statusFromMessage msg)
        (RouteBody.errorBody (friendlyMessage msg) msg)
  else RouteResult.responded 200 (RouteBody.productBody { MOCK_PRODUCT with id := productId })

/-- `onRequest` of the env-draft middleware on the product route. The path
regex `^\/api\/shopify\/products\/[^\/]+$` matches exactly the paths whose
split on `/` is `["", "api", "shopify", "products", seg]` with `seg`
non-empty; other paths fall through, OPTIONS short-circuits with 204, other
non-GET methods fall through, and GET runs the product fetch (the recomputed
`productId` from `split('/').pop()` is the same non-empty `seg`, so the
`Product ID is required` throw is unreachable). -/
def onRequest (cfg : ShopifyConfig) (method path : String)
    (upstream : String → Upstream ProductByIdResponse) : RouteResult :=
  match jsSplit '/' path with
  | ["", "api", "shopify", "products", seg] =>
    if seg = "" then RouteResult.passedThrough
    else if method = "OPTIONS" then RouteResult.responded 204 RouteBody.empty
    else if method ≠ "GET" then RouteResult.passedThrough
    else handleGet cfg seg upstream
  | _ => RouteResult.passedThrough

/-! ### Claim theorems for the service and route layers -/

/-- Claim C1: when the product fetch fails on a GET to the product route, the
responded status is derived from the error message by substring matching
(403/404/429 in that order, 500 otherwise) with the sniffed user-facing
message and the raw message as details; in particular an upstream GraphQL
error whose message is `"Not found"` yields status 500, because that message
does not contain the substring `"404"`. -/
theorem route_error_status_substring
    (cfg : ShopifyConfig) (path seg : String)
    (upstream : String → Upstream ProductByIdResponse) (msg : String)
    (hpath : jsSplit '/' path = ["", "api", "shopify", "products", seg])
    (hseg : seg ≠ "")
    (hcfg : isShopifyConfigured cfg = true)
    (hfail : fetchProductById (formatId seg) (upstream (formatId seg)) = Except.error msg) :
    onRequest cfg "GET" path upstream =
      RouteResult.responded
        (if strIncludes msg "403" then 403
         else if strIncludes msg "404" then 404
         else if strIncludes msg "429" then 429
         else 500)
        (RouteBody.errorBody (friendlyMessage msg) msg) ∧
    (∀ up2 : String → Upstream ProductByIdResponse,
      up2 (formatId seg) = Upstream.envelope (some ["Not found"]) none →
      onRequest cfg "GET" path up2 =
        RouteResult.responded 500 (RouteBody.errorBody "Not found" "Not found")) := by
  constructor
  · rw [onRequest, hpath]
    simp only [hseg, if_false, if_neg (by decide : ¬ ("GET" = "OPTIONS")),
      if_neg (by simp : ¬ ("GET" : String) ≠ "GET")]
    rw [handleGet, if_pos hcfg, hfail]
    rfl
  · intro up2 hup2
    rw [onRequest, hpath]
    simp only [hseg, if_false, if_neg (by decide : ¬ ("GET" = "OPTIONS")),
      if_neg (by simp : ¬ ("GET" : String) ≠ "GET")]
    rw [handleGet, if_pos hcfg, hup2]
    rfl

theorem route_error_status_substring_witness :
    (jsSplit '/' "/api/shopify/products/123" = ["", "api", "shopify", "products", "123"]) ∧
    (("123" : String) ≠ "") ∧
    isShopifyConfigured { domain := "shop.example.com", accessToken := "tok" } = true ∧
    fetchProductById (formatId "123")
      ((fun _ => Upstream.envelope (some ["Not found"]) none) (formatId "123")) =
      Except.error "Not found" ∧
    onRequest { domain := "shop.example.com", accessToken := "tok" } "GET"
        "/api/shopify/products/123" (fun _ => Upstream.envelope (some ["Not found"]) none) =
      RouteResult.responded 500 (RouteBody.errorBody "Not found" "Not found") := by
  refine ⟨by decide, by decide, by decide, rfl, ?_⟩
  have h := (route_error_status_substring
    { domain := "shop.example.com", accessToken := "tok" } "/api/shopify/products/123" "123"
    (fun _ => Upstream.envelope (some ["Not found"]) none) "Not found"
    (by decide) (by decide) (by decide) rfl).2
    (fun _ => Upstream.envelope (some ["Not found"]) none) rfl
  exact h

/-- Claim C5 counterexample: the middleware `formatProduct` forwards the
compare-at amount unconditionally, so a product whose compare-at minimum
variant price `"5.00"` is numerically smaller than its minimum variant price
`"10.00"` still gets a present `compareAtPrice` — refuting "present only if
strictly greater" for the formatting layer as a whole. -/
theorem formatProduct_compareAt_not_strict_cex :
    (formatProduct
      { id := "gid://shopify/Product/42", title := "P", handle := "p",
        description := "", availableForSale := true,
        priceRange := { minVariantPrice := { amount := "10.00", currencyCode := "USD" } },
        compareAtPriceRange :=
          some { minVariantPrice := { amount := "5.00", currencyCode := "USD" } },
        featuredImage := none, images := [], variants := [] }).compareAtPrice =
      some "5.00" ∧
    jsParseFloat "5.00" = some 5 ∧ jsParseFloat "10.00" = some 10 ∧ ¬ ((10 : ℚ) < 5) := by
  refine ⟨rfl, by decide, by decide, by decide⟩

/-- Claim C5 (amended): the utility-layer compare-at computation
(`computeCompareAtPrice`, shared by the featured/search/by-handle/recent
formatters of `src/utils/shopify.js`) yields a present value only when the
compare-at minimum variant price parses and is numerically strictly greater
than the parsed minimum variant price; the middleware `formatProduct`,
however, forwards the upstream compare-at amount unconditionally, so its
`compareAtPrice` can be present without being greater. -/
theorem compareAtPrice_presence_amended :
    (∀ (capMin : Option PriceStr) (priceMin : PriceStr),
      (computeCompareAtPrice capMin priceMin).isSome = true →
      ∃ cap qc qm, capMin = some cap ∧ jsParseFloat cap.amount = some qc ∧
        jsParseFloat priceMin.amount = some qm ∧ qm < qc) ∧
    (∀ product : GQLProduct,
      (formatProduct product).compareAtPrice =
        product.compareAtPriceRange.map (fun r => r.minVariantPrice.amount)) := by
  constructor
  · intro capMin priceMin h
    match capMin with
    | none => simp [computeCompareAtPrice] at h
    | some cap =>
      refine ⟨cap, ?_⟩
      simp only [computeCompareAtPrice] at h
      by_cases hgt : jsNumGt (jsParseFloat cap.amount) (jsParseFloat priceMin.amount) = true
      · cases hc : jsParseFloat cap.amount with
        | none => rw [hc] at hgt; simp [jsNumGt] at hgt
        | some qc =>
          cases hm : jsParseFloat priceMin.amount with
          | none => rw [hc, hm] at hgt; simp [jsNumGt] at hgt
          | some qm =>
            rw [hc, hm] at hgt
            simp only [jsNumGt, decide_eq_true_eq] at hgt
            exact ⟨qc, qm, rfl, rfl, rfl, hgt⟩
      · rw [if_neg hgt] at h
        simp at h
  · intro product
    rfl

theorem compareAtPrice_presence_amended_witness :
    (computeCompareAtPrice (some { amount := "12.00", currencyCode := "USD" })
        { amount := "10.00", currencyCode := "USD" }).isSome = true ∧
    (∃ cap qc qm,
      (some { amount := "12.00", currencyCode := "USD" } : Option PriceStr) = some cap ∧
      jsParseFloat cap.amount = some qc ∧
      jsParseFloat ("10.00" : String) = some qm ∧ qm < qc) :=
  ⟨by decide,
    compareAtPrice_presence_amended.1 (some { amount := "12.00", currencyCode := "USD" })
      { amount := "10.00", currencyCode := "USD" } (by decide)⟩

/-- Claim C6: a search term shorter than 2 characters makes `searchProducts`
return the empty list while issuing zero upstream requests. -/
theorem search_short_term_no_network
    (oracle : String → UpstreamSF SearchData) (searchQuery : String)
    (h : searchQuery.length < 2) :
    searchProducts oracle searchQuery = (Except.ok [], 0) := by
  simp [searchProducts, h]

theorem search_short_term_no_network_witness :
    ("a".length < 2) ∧
    searchProducts (fun _ => UpstreamSF.envelope none none) "a" = (Except.ok [], 0) :=
  ⟨by decide,
    search_short_term_no_network (fun _ => UpstreamSF.envelope none none) "a" (by decide)⟩

/-- Claim C7: `formatPrice(10, "USD")` is `"$10.00"`, `formatPrice("10.5",
"USD")` is `"$10.50"`, and a string amount that parses is formatted exactly
like the parsed number. -/
theorem formatPrice_spec :
    formatPrice (JSNum.num 10) "USD" = "$10.00" ∧
    formatPrice (JSNum.str "10.5") "USD" = "$10.50" ∧
    (∀ (s : String) (q : ℚ), jsParseFloat s = some q →
      formatPrice (JSNum.str s) "USD" = formatPrice (JSNum.num q) "USD") := by
  refine ⟨by decide, by decide, ?_⟩
  intro s q h
  simp [formatPrice, h]

theorem formatPrice_spec_witness :
    (jsParseFloat "3" = some 3) ∧
    formatPrice (JSNum.str "3") "USD" = formatPrice (JSNum.num 3) "USD" :=
  ⟨by decide, formatPrice_spec.2.2 "3" 3 (by decide)⟩

/-- Claim C8: on an upstream envelope whose product field is null,
`getProductByHandle` returns `none` rather than failing, while
`fetchProductById` fails with the not-found error naming the id. -/
theorem product_not_found_asymmetry (handle id : String) :
    getProductByHandle handle (UpstreamSF.envelope none (some { product := none })) = none ∧
    fetchProductById id (Upstream.envelope none (some { product := none })) =
      Except.error ("Product not found: " ++ id) := by
  constructor
  · by_cases h : handle = "" <;> simp [getProductByHandle, queryStorefront, h]
  · rfl

/-- Claim C9: with the store domain and access token left at their placeholder
defaults, a GET to the product route responds 200 with the canned mock
product whose id is replaced by the requested segment, regardless of what the
upstream would answer. -/
theorem mock_fallback_route
    (cfg : ShopifyConfig) (path seg : String)
    (upstream : String → Upstream ProductByIdResponse)
    (hpath : jsSplit '/' path = ["", "api", "shopify", "products", seg])
    (hseg : seg ≠ "")
    (hd : cfg.domain = "your-store.myshopify.com")
    (ht : cfg.accessToken = "your-access-token") :
    onRequest cfg "GET" path upstream =
      RouteResult.responded 200 (RouteBody.productBody { MOCK_PRODUCT with id := seg }) := by
  have hcfg : isShopifyConfigured cfg = false := by
    simp [isShopifyConfigured, hd, ht]
  rw [onRequest, hpath]
  simp only [hseg, if_false, if_neg (by decide : ¬ ("GET" = "OPTIONS")),
    if_neg (by simp : ¬ ("GET" : String) ≠ "GET")]
  rw [handleGet, if_neg (by rw [hcfg]; exact Bool.false_ne_true)]

theorem mock_fallback_route_witness :
    (jsSplit '/' "/api/shopify/products/abc" = ["", "api", "shopify", "products", "abc"]) ∧
    (("abc" : String) ≠ "") ∧
    onRequest { domain := "your-store.myshopify.com", accessToken := "your-access-token" }
        "GET" "/api/shopify/products/abc" (fun _ => Upstream.parseError) =
      RouteResult.responded 200 (RouteBody.productBody { MOCK_PRODUCT with id := "abc" }) :=
  ⟨by decide, by decide,
    mock_fallback_route
      { domain := "your-store.myshopify.com", accessToken := "your-access-token" }
      "/api/shopify/products/abc" "abc" (fun _ => Upstream.parseError)
      (by decide) (by decide) rfl rfl⟩
